import Mathlib

/-!
Verification of the PNG codec adapter (src/kexlib/gfx/PngImage.cc) of Doom64EX
against its natural-language specification.

The codec drives the external PNG library (libpng) through callbacks; the
library's bitstream mechanics are out of scope for the spec, so they are
modelled here as structured data (`PngData`) plus the documented effect of the
configured libpng transforms (`updateInfo`, `transformRow`).  The codec's own
logic — signature detection, the grAb chunk callback, the colour-type/bit-depth
switch, the palette construction, the pixel-format mapping on save, and the
resource acquire/release paths — is translated directly from the source.
-/

namespace PngCodec

/-- The engine's pixel-format enumeration (kex::gfx::pixel_format), restricted
to the tags the codec mentions. -/
inductive pixel_format where
  | rgb
  | bgr
  | rgba
  | bgra
  | index8
deriving DecidableEq

/-- An RGB colour-table entry (png_color: one byte per channel). -/
structure Rgb where
  red : Nat
  green : Nat
  blue : Nat
deriving DecidableEq

/-- An RGBA palette entry (kex::gfx::Rgba: one byte per channel). -/
structure Rgba where
  red : Nat
  green : Nat
  blue : Nat
  alpha : Nat
deriving DecidableEq

/-- Modelled from the spec: the engine's Image container (kex/gfx/Image is not
under src/).  It owns the scanlines (`pixels`, one list of byte values per
row), a pixel-format tag, an optional palette and a pair of signed sprite
offsets. -/
structure Image where
  width : Nat
  height : Nat
  format : pixel_format
  pixels : List (List Nat)
  palette : Option (List Rgba)
  offX : Int
  offY : Int
deriving DecidableEq

/-- An unknown (user) chunk as libpng hands it to the user-chunk callback:
a name (at least 4 bytes) and a payload of raw bytes. -/
structure PngChunk where
  name : List Nat
  data : List Nat
deriving DecidableEq

/-- Modelled from the spec: the content of a PNG stream as the external PNG
library reports it after parsing (bitstream framing, CRC and inflate are out of
scope): the IHDR fields, the PLTE colour table, the optional tRNS alpha table,
the unknown chunks offered to the user-chunk callback, and the de-interlaced
scanlines at the source bit depth. -/
structure PngData where
  width : Nat
  height : Nat
  bitDepth : Nat
  colorType : Nat
  interlace : Nat
  plte : List Rgb
  trns : Option (List Nat)
  chunks : List PngChunk
  rows : List (List Nat)
deriving DecidableEq

/-! PNG colour-type constants (png.h). -/

def PNG_COLOR_TYPE_GRAY : Nat := 0
def PNG_COLOR_TYPE_RGB : Nat := 2
def PNG_COLOR_TYPE_PALETTE : Nat := 3
def PNG_COLOR_TYPE_GRAY_ALPHA : Nat := 4
def PNG_COLOR_TYPE_RGB_ALPHA : Nat := 6

/-! ## detect (PngImage.cc lines 40-47) -/

/-- The 8-byte PNG signature, the bytes of the string literal at line 42. -/
def pngMagic : List Nat := [0x89, 0x50, 0x4E, 0x47, 0x0D, 0x0A, 0x1A, 0x0A]

/-- The zero-initialized read buffer of detect after `s.read(buf, 8)`:
up to 8 bytes from the stream, the rest still zero (line 43-45; `sizeof magic`
is the size of the `magic` pointer, 8 on an LP64 host). -/
def detectBuf (s : List Nat) : List Nat :=
  s.take 8 ++ List.replicate (8 - s.length) 0

/-- PngImage::detect: strncmp of the buffer against the signature over 8
bytes (line 46).  The signature contains no zero byte, so the comparison is
plain byte equality of the two 8-byte buffers. -/
def detect (s : List Nat) : Bool :=
  detectBuf s == pngMagic

/-! ## The grAb user-chunk callback (PngImage.cc lines 74-88) -/

/-- Reinterpret four bytes, read big-endian, as a signed 32-bit integer: the
combined effect of loading an int32 from the chunk payload and
kex::cpu::swap_be, which byte-swaps big-endian data to host order. -/
def be32 (b0 b1 b2 b3 : Nat) : Int :=
  let n := b0 * 16777216 + b1 * 65536 + b2 * 256 + b3
  if n < 2147483648 then (n : Int) else (n : Int) - 4294967296

/-- The 4 bytes of the chunk name "grAb". -/
def grabName : List Nat := [0x67, 0x72, 0x41, 0x62]

/-- The user-chunk callback chunkFn (lines 77-87): on a chunk whose name
starts with "grAb" and whose payload holds at least 8 bytes it overwrites the
caller-supplied offset buffer with the two big-endian int32 payload values and
reports the chunk handled (1); otherwise it leaves the buffer alone and
reports 0. -/
def chunkFn (offsets : Int × Int) (c : PngChunk) : (Int × Int) × Nat :=
  if c.name.take 4 = grabName ∧ 8 ≤ c.data.length then
    ((be32 (c.data.getD 0 0) (c.data.getD 1 0) (c.data.getD 2 0) (c.data.getD 3 0),
      be32 (c.data.getD 4 0) (c.data.getD 5 0) (c.data.getD 6 0) (c.data.getD 7 0)), 1)
  else
    (offsets, 0)

/-- The offset buffer after libpng has offered every unknown chunk of the
stream to chunkFn, starting from the buffer's initial contents.  The buffer
`int offsets[2]` at line 76 has no initializer, so its initial contents are
whatever happened to be on the stack; they are passed in as `junk`. -/
def processChunks (junk : Int × Int) (cs : List PngChunk) : Int × Int :=
  cs.foldl (fun o c => (chunkFn o c).1) junk

/-! ## The configured libpng transforms (PngImage.cc lines 95-106)

The codec sets png_set_strip_16, png_set_packing and
png_set_interlace_handling unconditionally, png_set_expand when the source
colour type is grayscale, and png_set_gray_to_rgb when it is
grayscale-with-alpha, then re-queries the IHDR via png_read_update_info. -/

/-- Which libpng transforms load registers, as a function of the source
colour type (lines 95-103). -/
structure TransformSet where
  strip16 : Bool
  packing : Bool
  expand : Bool
  grayToRgb : Bool
deriving DecidableEq

/-- The transform set registered by load for a given source colour type. -/
def mkTransformSet (colorType : Nat) : TransformSet :=
  { strip16 := true
    packing := true
    expand := colorType = PNG_COLOR_TYPE_GRAY
    grayToRgb := colorType = PNG_COLOR_TYPE_GRAY_ALPHA }

/-- The IHDR values png_get_IHDR reports after png_read_update_info, plus
whether the tRNS chunk is still valid (png_get_valid(.., PNG_INFO_tRNS)). -/
structure UpdatedInfo where
  colorType : Nat
  bitDepth : Nat
  trnsValid : Bool
deriving DecidableEq

/-- Modelled from the spec: the documented effect of png_read_update_info on
the reported IHDR under the registered transforms (libpng itself is out of
scope).  Expand turns palette into RGB(+alpha if tRNS), promotes gray below 8
bits to 8 and converts tRNS to an alpha channel; strip-16 reduces depth 16 to
8; packing unpacks depths below 8 to one byte per sample, so the reported
depth becomes 8; gray-to-rgb adds the colour flag to gray colour types. -/
def updateInfo (t : TransformSet) (ct bd : Nat) (hasTrns : Bool) : UpdatedInfo :=
  let s1 : Nat × Nat × Bool :=
    if t.expand then
      if ct = PNG_COLOR_TYPE_PALETTE then
        (if hasTrns then PNG_COLOR_TYPE_RGB_ALPHA else PNG_COLOR_TYPE_RGB, 8, false)
      else
        let bd1 := if bd < 8 then 8 else bd
        if hasTrns then (ct + 4, bd1, false) else (ct, bd1, hasTrns)
    else (ct, bd, hasTrns)
  let s2 : Nat × Nat × Bool :=
    (s1.1, if t.strip16 ∧ s1.2.1 = 16 then 8 else s1.2.1, s1.2.2)
  let s3 : Nat × Nat × Bool :=
    (s2.1, if t.packing ∧ s2.2.1 < 8 then 8 else s2.2.1, s2.2.2)
  let ct4 : Nat :=
    if t.grayToRgb ∧ s3.1 = PNG_COLOR_TYPE_GRAY then PNG_COLOR_TYPE_RGB
    else if t.grayToRgb ∧ s3.1 = PNG_COLOR_TYPE_GRAY_ALPHA then PNG_COLOR_TYPE_RGB_ALPHA
    else s3.1
  ⟨ct4, s3.2.1, s3.2.2⟩

/-! ## The colour-type switch (PngImage.cc lines 108-131) -/

/-- The switch mapping the post-update colour type and bit depth to the
engine's pixel format, or to a load error (lines 108-131). -/
def mapFormat (colorType bitDepth : Nat) : Except String pixel_format :=
  if colorType = PNG_COLOR_TYPE_RGB then .ok .rgb
  else if colorType = PNG_COLOR_TYPE_RGB_ALPHA then .ok .rgba
  else if colorType = PNG_COLOR_TYPE_PALETTE then
    if bitDepth = 8 then .ok .index8
    else .error ("Invalid PNG bit depth: " ++ toString bitDepth)
  else .error ("Unknown PNG image color type: " ++ toString colorType)

/-! ## Palette construction (PngImage.cc lines 138-175) -/

/-- The tRNS branch (lines 140-161): a fresh RGBA palette with one entry per
PLTE entry, RGB copied from the colour table, alpha taken from the
transparency table where it covers the index and 0xff elsewhere. -/
def buildTrnsPalette (colors : List Rgb) (alphaTab : List Nat) : List Rgba :=
  (List.range colors.length).map fun i =>
    let c := colors.getD i ⟨0, 0, 0⟩
    ⟨c.red, c.green, c.blue, if i < alphaTab.length then alphaTab.getD i 0 else 0xff⟩

/-- Modelled from the spec: the Image container (not under src/) gives an
index8 image a default palette; its entry count d is left as a parameter
(the spec bounds it by 256 and says only that alpha/format come from this
default initialization). -/
def defaultPalette (d : Nat) : List Rgba :=
  List.replicate d ⟨0, 0, 0, 0xff⟩

/-- The no-tRNS branch (lines 162-174): the loop ranges over the image's
default palette entries while advancing the PLTE pointer with no bounds check
against the PLTE entry count, copying R/G/B and keeping the default entry's
alpha.  Consuming the PLTE list embeds the advancing pointer; in this total
embedding an access past the end of the PLTE array yields none. -/
def copyPlteEntries : List Rgba → List Rgb → Option (List Rgba)
  | [], _ => some []
  | _ :: _, [] => none
  | d :: ds, p :: ps =>
      (copyPlteEntries ds ps).map fun rest => ⟨p.red, p.green, p.blue, d.alpha⟩ :: rest

/-! ## Scanline content (PngImage.cc line 179 with the registered transforms) -/

/-- Split one packed byte into its samples, most significant bits first
(libpng packing order), for sample depths 1, 2 and 4. -/
def unpackByte (depth b : Nat) : List Nat :=
  if depth = 1 then
    [b / 128 % 2, b / 64 % 2, b / 32 % 2, b / 16 % 2, b / 8 % 2, b / 4 % 2, b / 2 % 2, b % 2]
  else if depth = 2 then
    [b / 64 % 4, b / 16 % 4, b / 4 % 4, b % 4]
  else if depth = 4 then
    [b / 16, b % 16]
  else [b]

/-- Keep the bytes at even positions of a row: the effect of strip-16 on a
16-bit big-endian scanline (the high byte of each sample survives). -/
def dropLowBytes : List Nat → List Nat
  | [] => []
  | [a] => [a]
  | a :: _ :: rest => a :: dropLowBytes rest

/-- Modelled from the spec: the documented effect of the registered transforms
on one scanline (row bytes at the source depth).  Depths below 8 are unpacked
to one sample per byte and truncated to the image width (packing), depth 16 is
stripped to its high bytes, depth 8 rows pass through unchanged. -/
def transformRow (bitDepth width : Nat) (row : List Nat) : List Nat :=
  if bitDepth < 8 then ((row.map (unpackByte bitDepth)).flatten).take width
  else if bitDepth = 16 then dropLowBytes row
  else row

/-! ## load (PngImage.cc lines 49-183) -/

/-- PngImage::load, translated from lines 49-183 over the parsed stream
content.  `junk` is the initial contents of the uninitialized stack buffer
`int offsets[2]` (line 76); `dflt` is the default palette the Image container
gives an index8 image.  Allocation failures and internal libpng errors
(lines 51-66) are separate exit paths modelled by `loadExitLedger` below; this
function is the behaviour when the library itself reports no error. -/
def load (dflt : List Rgba) (junk : Int × Int) (png : PngData) : Except String Image :=
  let offsets := processChunks junk png.chunks
  let t := mkTransformSet png.colorType
  let ui := updateInfo t png.colorType png.bitDepth png.trns.isSome
  match mapFormat ui.colorType ui.bitDepth with
  | .error e => .error e
  | .ok format =>
    let rows := png.rows.map (transformRow png.bitDepth png.width)
    if ui.colorType = PNG_COLOR_TYPE_PALETTE then
      if ui.trnsValid then
        .ok ⟨png.width, png.height, format, rows,
             some (buildTrnsPalette png.plte (png.trns.getD [])), offsets.1, offsets.2⟩
      else
        match copyPlteEntries dflt png.plte with
        | none => .error "out-of-range PLTE read"
        | some es =>
            .ok ⟨png.width, png.height, format, rows, some es, offsets.1, offsets.2⟩
    else
      .ok ⟨png.width, png.height, format, rows, none, offsets.1, offsets.2⟩

/-! ## save (PngImage.cc lines 185-244) -/

/-- PngImage::save, translated from lines 185-244: map the pixel format to a
PNG colour type ({rgb, bgr} to RGB, {rgba, bgra} to RGB+alpha, anything else
a save error), then emit an IHDR with the image's width and height, bit depth
8, no interlacing, and the scanlines straight from the image's buffer with no
copy and no channel reordering; no unknown chunk (in particular no grAb) is
written. -/
def save (img : Image) : Except String PngData :=
  match img.format with
  | .rgb | .bgr =>
      .ok ⟨img.width, img.height, 8, PNG_COLOR_TYPE_RGB, 0, [], none, [], img.pixels⟩
  | .rgba | .bgra =>
      .ok ⟨img.width, img.height, 8, PNG_COLOR_TYPE_RGB_ALPHA, 0, [], none, [], img.pixels⟩
  | _ => .error "Saving image with incompatible pixel format"

/-! ## Resource acquisition and release paths (PngImage.cc lines 49-66,
118-131, 182 and 185-202, 229-243)

Each of png_create_read_struct / png_create_info_struct (resp. the write
variants) acquires one handle; png_destroy_read_struct /
png_destroy_write_struct release the handles passed to them.  The ledgers
below record, exit path by exit path as written in the source, how many
handles the call acquired and how many it released before returning. -/

/-- The exit paths of PngImage::load. -/
inductive LoadExit where
  | createReadFail
  | createInfoFail
  | libpngTrap
  | formatError
  | success
deriving DecidableEq

/-- Handles acquired by load on each exit path: none when the read struct
cannot be created, one when the info struct cannot be created, two
otherwise. -/
def loadAcquired : LoadExit → Nat
  | .createReadFail => 0
  | .createInfoFail => 1
  | _ => 2

/-- Handles released by load on each exit path, as written: line 58 releases
the read struct, line 64 releases both; the throws at lines 125 and 130 and
the return at line 182 release nothing. -/
def loadReleased : LoadExit → Nat
  | .createReadFail => 0
  | .createInfoFail => 1
  | .libpngTrap => 2
  | .formatError => 0
  | .success => 0

/-- The exit paths of PngImage::save. -/
inductive SaveExit where
  | createWriteFail
  | createInfoFail
  | libpngTrap
  | formatError
  | success
deriving DecidableEq

/-- Handles acquired by save on each exit path. -/
def saveAcquired : SaveExit → Nat
  | .createWriteFail => 0
  | .createInfoFail => 1
  | _ => 2

/-- Handles released by save on each exit path, as written: line 194 releases
the write struct, line 200 releases both, line 243 releases both on success;
the throw at line 230 releases nothing. -/
def saveReleased : SaveExit → Nat
  | .createWriteFail => 0
  | .createInfoFail => 1
  | .libpngTrap => 2
  | .formatError => 0
  | .success => 2

/-! ## Observation helpers and concrete inputs -/

/-- Whether a load or save call returned normally rather than throwing. -/
def resultOk {α : Type} : Except String α → Bool
  | .ok _ => true
  | .error _ => false

/-- The palette of the image a load call returned (empty if it threw or the
image has no palette). -/
def loadedPalette : Except String Image → List Rgba
  | .ok img => img.palette.getD []
  | .error _ => []

/-- The PNG colour type an accomplished save call wrote into the IHDR. -/
def savedColorType : Except String PngData → Option Nat
  | .ok f => some f.colorType
  | .error _ => none

/-- save followed by load on its output stream, the composition the round-trip
property of the spec speaks about. -/
def roundtrip (dflt : List Rgba) (junk : Int × Int) (img : Image) : Except String Image :=
  match save img with
  | .error e => .error e
  | .ok png => load dflt junk png

/-- A 1x1 RGB stream carrying a well-formed grAb chunk with the big-endian
int32 payload values 5 and -3. -/
def grabPng : PngData :=
  ⟨1, 1, 8, PNG_COLOR_TYPE_RGB, 0, [], none,
   [⟨grabName, [0, 0, 0, 5, 255, 255, 255, 253]⟩], [[10, 20, 30]]⟩

/-- The same 1x1 RGB stream with no grAb chunk. -/
def noGrabPng : PngData :=
  ⟨1, 1, 8, PNG_COLOR_TYPE_RGB, 0, [], none, [], [[10, 20, 30]]⟩

/-- A 1x1 8-bit grayscale stream without alpha (gray value 128). -/
def grayPng : PngData :=
  ⟨1, 1, 8, PNG_COLOR_TYPE_GRAY, 0, [], none, [], [[128]]⟩

/-- A 2x1 paletted stream with bit depth 4, a two-entry PLTE, a one-entry
tRNS table and one packed row byte 0x01 (pixels 0 and 1). -/
def pal4Png : PngData :=
  ⟨2, 1, 4, PNG_COLOR_TYPE_PALETTE, 0, [⟨255, 0, 0⟩, ⟨0, 255, 0⟩], some [5], [], [[1]]⟩

/-- A 1x1 8-bit paletted stream with a two-entry PLTE and a one-entry tRNS
table. -/
def pal8Png : PngData :=
  ⟨1, 1, 8, PNG_COLOR_TYPE_PALETTE, 0, [⟨1, 2, 3⟩, ⟨4, 5, 6⟩], some [7], [], [[0]]⟩

/-- A 1x1 8-bit paletted stream with a one-entry PLTE and no tRNS chunk. -/
def pal8NoTrnsPng : PngData :=
  ⟨1, 1, 8, PNG_COLOR_TYPE_PALETTE, 0, [⟨1, 2, 3⟩], none, [], [[0]]⟩

/-- A 1x1 RGB image. -/
def img1 : Image := ⟨1, 1, .rgb, [[10, 20, 30]], none, 0, 0⟩

/-- A 1x1 BGRA image. -/
def imgBgra : Image := ⟨1, 1, .bgra, [[1, 2, 3, 4]], none, 0, 0⟩

/-! ## Theorems -/

/-- Claim C6: detect returns true iff the first 8 bytes of the stream equal
the PNG signature; a stream shorter than 8 bytes never matches (its
zero-padded buffer differs from the signature, whose bytes are all nonzero),
and detect is a total boolean predicate, so it never throws. -/
theorem detect_iff_signature (s : List Nat) :
    detect s = true ↔ s.take 8 = pngMagic := by
  unfold detect detectBuf
  rw [beq_iff_eq]
  constructor
  · intro h
    rcases Nat.lt_or_ge s.length 8 with hl | hl
    · exfalso
      have hsuf : List.replicate (8 - s.length) 0 <:+ pngMagic := ⟨s.take 8, h⟩
      have hmem : (0 : Nat) ∈ pngMagic := by
        refine hsuf.sublist.mem ?_
        exact List.mem_replicate.mpr ⟨by omega, rfl⟩
      revert hmem
      decide
    · rwa [Nat.sub_eq_zero_of_le hl, List.replicate_zero, List.append_nil] at h
  · intro h
    have hlen : 8 ≤ s.length := by
      have h8 := congrArg List.length h
      rw [List.length_take] at h8
      have : pngMagic.length = 8 := by decide
      omega
    rw [Nat.sub_eq_zero_of_le hlen, List.replicate_zero, List.append_nil]
    exact h

/-- Claim C1: the grAb half of the claim holds (a well-formed grAb chunk with
big-endian payload 5, -3 yields offsets (5, -3)), but the offset buffer is the
uninitialized stack array int offsets[2] of line 76, so with no grAb chunk
load returns whatever the stack held (here 7, 9) instead of the claimed
(0, 0): the buffer is never zero-initialized before decoding. -/
theorem load_offsets_uninitialized :
    load (defaultPalette 256) (7, 9) grabPng =
      .ok ⟨1, 1, .rgb, [[10, 20, 30]], none, 5, -3⟩ ∧
    load (defaultPalette 256) (7, 9) noGrabPng =
      .ok ⟨1, 1, .rgb, [[10, 20, 30]], none, 7, 9⟩ :=
  ⟨rfl, rfl⟩

/-- Claim C2: a grayscale stream without alpha is configured only with
png_set_expand (line 99-100), which keeps the gray colour type, so the
colour-type switch of lines 108-131 falls through to its default case and
load throws instead of returning an rgb image. -/
theorem load_grayscale_rejected :
    load (defaultPalette 256) (0, 0) grayPng =
      .error ("Unknown PNG image color type: " ++ toString PNG_COLOR_TYPE_GRAY) :=
  rfl

/-- Claim C3 counterexample: a paletted stream with bit depth 4 does not make
load throw; the packing transform makes the reported depth 8, so load returns
an index8 image with the row unpacked to one index per byte. -/
theorem load_palette_depth4_succeeds :
    load (defaultPalette 256) (0, 0) pal4Png =
      .ok ⟨2, 1, .index8, [[0, 1]],
           some [⟨255, 0, 0, 5⟩, ⟨0, 255, 0, 255⟩], 0, 0⟩ :=
  rfl

/-- Claim C8: the exit-path ledgers of load and save show the leak: on
load's success exit (the return at line 182) and on its colour-type and
bit-depth error throws (lines 125 and 130) both acquired handles are still
unreleased, and save's incompatible-format throw (line 230) likewise releases
neither handle, contradicting release-exactly-once on every exit path. -/
theorem load_success_path_leaks :
    loadAcquired .success = 2 ∧ loadReleased .success = 0 ∧
    loadAcquired .formatError = 2 ∧ loadReleased .formatError = 0 ∧
    saveAcquired .formatError = 2 ∧ saveReleased .formatError = 0 := by
  decide

/-- Claim C3 (amended): for a paletted stream of any PNG-legal bit depth
(1 to 8), the packing transform registered at line 96 makes the depth
reported after png_read_update_info equal 8, so the switch maps the stream to
index8 and the invalid-bit-depth load error is never raised for such
streams. -/
theorem palette_low_depth_normalized (bd : Nat) (hasTrns : Bool)
    (hbd1 : 1 ≤ bd) (hbd8 : bd ≤ 8) :
    (updateInfo (mkTransformSet PNG_COLOR_TYPE_PALETTE)
        PNG_COLOR_TYPE_PALETTE bd hasTrns).bitDepth = 8 ∧
    mapFormat
        (updateInfo (mkTransformSet PNG_COLOR_TYPE_PALETTE)
          PNG_COLOR_TYPE_PALETTE bd hasTrns).colorType
        (updateInfo (mkTransformSet PNG_COLOR_TYPE_PALETTE)
          PNG_COLOR_TYPE_PALETTE bd hasTrns).bitDepth = .ok .index8 := by
  interval_cases bd <;> cases hasTrns <;> exact ⟨rfl, rfl⟩

/-- Witness for the amended C3 theorem at bit depth 4 with a tRNS chunk. -/
theorem palette_low_depth_normalized_witness :
    (updateInfo (mkTransformSet PNG_COLOR_TYPE_PALETTE)
        PNG_COLOR_TYPE_PALETTE 4 true).bitDepth = 8 ∧
    mapFormat
        (updateInfo (mkTransformSet PNG_COLOR_TYPE_PALETTE)
          PNG_COLOR_TYPE_PALETTE 4 true).colorType
        (updateInfo (mkTransformSet PNG_COLOR_TYPE_PALETTE)
          PNG_COLOR_TYPE_PALETTE 4 true).bitDepth = .ok .index8 :=
  palette_low_depth_normalized 4 true (by decide) (by decide)

/-- Claim C4: loading an 8-bit paletted stream with a tRNS chunk succeeds and
installs a palette with one entry per PLTE entry, RGB copied from the colour
table and alpha taken from the transparency table where it covers the index,
0xff elsewhere. -/
theorem load_trns_palette (dflt : List Rgba) (junk : Int × Int) (png : PngData)
    (ts : List Nat)
    (hct : png.colorType = PNG_COLOR_TYPE_PALETTE)
    (hbd : png.bitDepth = 8)
    (htrns : png.trns = some ts) :
    resultOk (load dflt junk png) = true ∧
    (loadedPalette (load dflt junk png)).length = png.plte.length ∧
    ∀ i, i < png.plte.length →
      (loadedPalette (load dflt junk png)).get? i =
        some ⟨(png.plte.getD i ⟨0, 0, 0⟩).red, (png.plte.getD i ⟨0, 0, 0⟩).green,
              (png.plte.getD i ⟨0, 0, 0⟩).blue,
              if i < ts.length then ts.getD i 0 else 0xff⟩ := by
  have hload : load dflt junk png =
      .ok ⟨png.width, png.height, .index8,
           png.rows.map (transformRow png.bitDepth png.width),
           some (buildTrnsPalette png.plte ts),
           (processChunks junk png.chunks).1, (processChunks junk png.chunks).2⟩ := by
    unfold load
    rw [hct, hbd, htrns]
    rfl
  refine ⟨by rw [hload]; rfl, ?_, ?_⟩
  · rw [hload]
    show (buildTrnsPalette png.plte ts).length = png.plte.length
    simp [buildTrnsPalette]
  · intro i hi
    rw [hload]
    show (buildTrnsPalette png.plte ts).get? i = _
    unfold buildTrnsPalette
    rw [List.get?_eq_getElem?, List.getElem?_map, List.getElem?_range hi]
    simp

/-- Witness for the C4 theorem: the second palette entry of the concrete
8-bit paletted stream, not covered by the one-entry tRNS table, comes out
with its PLTE colours and alpha 0xff. -/
theorem load_trns_palette_witness :
    (loadedPalette (load (defaultPalette 256) (0, 0) pal8Png)).get? 1 =
      some ⟨4, 5, 6, 255⟩ := by
  have h := load_trns_palette (defaultPalette 256) (0, 0) pal8Png [7] rfl rfl rfl
  have h2 := h.2.2 1 (by decide)
  simpa [pal8Png] using h2

/-- Claim C5: save maps rgb and bgr to PNG colour type RGB, rgba and bgra to
RGB+alpha, throws the incompatible-pixel-format save error on every other
format (notably index8), and returns normally for each of the four supported
formats. -/
theorem save_format_mapping (img : Image) :
    ((img.format = .rgb ∨ img.format = .bgr) →
        savedColorType (save img) = some PNG_COLOR_TYPE_RGB) ∧
    ((img.format = .rgba ∨ img.format = .bgra) →
        savedColorType (save img) = some PNG_COLOR_TYPE_RGB_ALPHA) ∧
    (img.format = .index8 →
        save img = .error "Saving image with incompatible pixel format") ∧
    (img.format ≠ .index8 → resultOk (save img) = true) := by
  cases h : img.format <;>
    simp [save, savedColorType, resultOk, h,
      PNG_COLOR_TYPE_RGB, PNG_COLOR_TYPE_RGB_ALPHA]

/-- Witness for the C5 theorem at a concrete rgb image. -/
theorem save_format_mapping_witness :
    savedColorType (save img1) = some PNG_COLOR_TYPE_RGB :=
  (save_format_mapping img1).1 (Or.inl rfl)

/-- Claim C7: saving an rgb or rgba image of positive size and loading the
result back yields an image with the same width, height, pixel format and
pixel content (the sprite offsets are not preserved, the loaded ones being
whatever the uninitialized buffer held). -/
theorem save_load_roundtrip (dflt : List Rgba) (junk : Int × Int) (img : Image)
    (hfmt : img.format = .rgb ∨ img.format = .rgba)
    (hw : 1 ≤ img.width) (hh : 1 ≤ img.height) :
    (roundtrip dflt junk img).map (fun i => (i.width, i.height, i.format, i.pixels)) =
      .ok (img.width, img.height, img.format, img.pixels) := by
  have hid : ∀ r ∈ img.pixels, transformRow 8 img.width r = id r :=
    fun r _ => by simp [transformRow]
  have hrows : img.pixels.map (transformRow 8 img.width) = img.pixels := by
    rw [List.map_congr_left hid, List.map_id]
  rcases hfmt with h | h
  · have hsave : save img =
        .ok ⟨img.width, img.height, 8, PNG_COLOR_TYPE_RGB, 0, [], none, [], img.pixels⟩ := by
      unfold save
      rw [h]
    have hrt : roundtrip dflt junk img = load dflt junk
        ⟨img.width, img.height, 8, PNG_COLOR_TYPE_RGB, 0, [], none, [], img.pixels⟩ := by
      unfold roundtrip
      rw [hsave]
    have hload : load dflt junk
        ⟨img.width, img.height, 8, PNG_COLOR_TYPE_RGB, 0, [], none, [], img.pixels⟩ =
        .ok ⟨img.width, img.height, .rgb, img.pixels.map (transformRow 8 img.width),
             none, junk.1, junk.2⟩ := by
      unfold load
      rfl
    rw [hrt, hload, hrows, h]
    rfl
  · have hsave : save img =
        .ok ⟨img.width, img.height, 8, PNG_COLOR_TYPE_RGB_ALPHA, 0, [], none, [], img.pixels⟩ := by
      unfold save
      rw [h]
    have hrt : roundtrip dflt junk img = load dflt junk
        ⟨img.width, img.height, 8, PNG_COLOR_TYPE_RGB_ALPHA, 0, [], none, [], img.pixels⟩ := by
      unfold roundtrip
      rw [hsave]
    have hload : load dflt junk
        ⟨img.width, img.height, 8, PNG_COLOR_TYPE_RGB_ALPHA, 0, [], none, [], img.pixels⟩ =
        .ok ⟨img.width, img.height, .rgba, img.pixels.map (transformRow 8 img.width),
             none, junk.1, junk.2⟩ := by
      unfold load
      rfl
    rw [hrt, hload, hrows, h]
    rfl

/-- Witness for the C7 theorem at a concrete 1x1 rgb image with nonzero
stack junk in the offset buffer. -/
theorem save_load_roundtrip_witness :
    (roundtrip (defaultPalette 256) (3, 4) img1).map
        (fun i => (i.width, i.height, i.format, i.pixels)) =
      .ok (1, 1, pixel_format.rgb, [[10, 20, 30]]) := by
  have h := save_load_roundtrip (defaultPalette 256) (3, 4) img1
    (Or.inl rfl) (by decide) (by decide)
  simpa [img1] using h

/-- Claim C9: for each of the four supported pixel formats save emits an IHDR
with the image's width and height, bit depth 8, no interlacing and the mapped
colour type, writes the scanlines straight from the image's buffer with no
copy and no channel reordering, and emits no unknown chunk (in particular no
grAb chunk). -/
theorem save_output_shape (img : Image)
    (hfmt : img.format = .rgb ∨ img.format = .bgr ∨
            img.format = .rgba ∨ img.format = .bgra) :
    (save img).map (fun f => (f.width, f.height, f.bitDepth, f.interlace, f.rows, f.chunks)) =
      .ok (img.width, img.height, 8, 0, img.pixels, ([] : List PngChunk)) ∧
    savedColorType (save img) =
      some (if img.format = .rgb ∨ img.format = .bgr then PNG_COLOR_TYPE_RGB
            else PNG_COLOR_TYPE_RGB_ALPHA) := by
  rcases hfmt with h | h | h | h <;>
    simp [save, savedColorType, h, Except.map]

/-- Witness for the C9 theorem at a concrete 1x1 bgra image: its bytes are
written as-is and the colour type is RGB+alpha. -/
theorem save_output_shape_witness :
    (save imgBgra).map
        (fun f => (f.width, f.height, f.bitDepth, f.interlace, f.rows, f.chunks)) =
      .ok (1, 1, 8, 0, [[1, 2, 3, 4]], ([] : List PngChunk)) ∧
    savedColorType (save imgBgra) = some PNG_COLOR_TYPE_RGB_ALPHA := by
  have h := save_output_shape imgBgra (Or.inr (Or.inr (Or.inr rfl)))
  simpa [imgBgra] using h

/-- Claim C10: the no-tRNS palette copy reads one PLTE entry per default
palette entry with no bounds check, so it runs out of range exactly when the
image's default palette has more entries than the PLTE; through load, a
one-entry PLTE against the 256-entry default palette reaches the
out-of-range branch. -/
theorem plte_copy_oob (dflt : List Rgba) (plte : List Rgb) :
    (copyPlteEntries dflt plte = none ↔ plte.length < dflt.length) ∧
    load (defaultPalette 256) (0, 0) pal8NoTrnsPng = .error "out-of-range PLTE read" := by
  constructor
  · induction dflt generalizing plte with
    | nil => simp [copyPlteEntries]
    | cons d ds ih =>
      cases plte with
      | nil => simp [copyPlteEntries]
      | cons p ps =>
          simp [copyPlteEntries, Option.map_eq_none', ih ps, Nat.succ_lt_succ_iff]
  · rfl

/-- Witness for the C10 theorem: a three-entry default palette against a
one-entry PLTE makes the copy run out of range. -/
theorem plte_copy_oob_witness :
    copyPlteEntries (defaultPalette 3) [⟨1, 2, 3⟩] = none :=
  (plte_copy_oob (defaultPalette 3) [⟨1, 2, 3⟩]).1.mpr (by decide)

end PngCodec
